import Mathlib

/-!
Shallow embedding of the signature status callback handling of
`django_docusign_demo/views.py` (class `SignatureCallbackView`), the
callback state-update machine: parsing a DocuSign status notification,
mapping provider statuses to local signer states, and replacing the
stored document on completion.

Modelling decisions, each tied to the source:

* A `Signer` row carries the fields the callback code touches:
  `pk` (the primary key, used as DocuSign client-user id to correlate
  callbacks), `status` (stored as the lower-case status string, exactly
  what `update_signer_status` writes), `statusDatetime` (the value of
  `now()` at save time, modelled as a `Nat` clock value passed into
  processing), and `statusDetails` (the decline reason text).
* A `Signature` row carries `signatureBackendId` (the DocuSign envelope
  id), its document as a `(documentName, documentContent)` pair, and its
  owned signers.  The database is a `List Signature`;
  `Signature.objects.get(signature_backend_id=...)` is `List.find?`
  (backend ids are unique, set once at creation).
* The parsed `BeautifulSoup` view of the request body is `Notification`:
  `status` is `Option String` because `...Status.string` is `None` when
  the tag is absent or empty; `declineReason` is `Option String` where
  `none` models an absent `DeclineReason` tag, on which
  `...DeclineReason.string` raises `AttributeError`.
* The provider client (`signature_backend.docusign_client`) and the
  Django file storage are the environment `Env`: document-list and
  document fetches may fail (network errors), the store step
  (`document.save`) may fail (`storeOk`).  A document-list entry is just
  its `documentId` string, the only field the code reads.
* Python exceptions become the `ProcError` values; each constructor's
  doc comment names the concrete exception it stands for.
* Processing returns a `ProcResult`: the database as left behind by the
  saves that did run before any exception, the outcome, and whether
  `document.close()` (line 242) was executed.
-/

/-- One document-list entry is used only through its `documentId` string
(`document_list[0]['documentId']`), so an entry is that string. -/
abbrev DocumentId := String

/-- Python's `status.lower()` on the status string.  The vocabulary the
code compares against is ASCII, for which per-character `Char.toLower`
agrees with Python's `str.lower()`. -/
def lowerString (s : String) : String := ⟨s.data.map Char.toLower⟩

/-- The failure modes of callback processing, one per Python exception
the code can raise:
* `malformedNotification`: `Exception('Could not parse callback request body.')`,
  raised when the parsed status string is `None`;
* `unknownStatus`: `Exception('Unknown status ...')` for a lower-cased
  status outside the allowed list;
* `unknownEnvelope`: `Signature.DoesNotExist` from
  `Signature.objects.get(signature_backend_id=envelope_id)`;
* `unknownSigner`: `Signer.DoesNotExist` from
  `self.signature.signers.get(pk=signer_id)`;
* `indexError`: `IndexError` from `document_list[0]` on an empty list;
* `documentRetrievalFailed`: a pydocusign client error from
  `get_envelope_document_list` or `get_envelope_document`;
* `storeFailed`: a storage error from `self.signature.document.save(...)`;
* `attributeError`: `AttributeError` from `.string` on the `None`
  returned by navigating to an absent `DeclineReason` tag. -/
inductive ProcError where
  | malformedNotification
  | unknownStatus (value : String)
  | unknownEnvelope (id : String)
  | unknownSigner (id : String)
  | indexError
  | documentRetrievalFailed
  | storeFailed
  | attributeError
deriving Repr, DecidableEq

/-- A `Signer` row, restricted to the fields the callback code reads or
writes.  `pk` doubles as the DocuSign client-user id, exactly as in
`self.signature.signers.get(pk=signer_id)`. -/
structure Signer where
  pk : String
  fullName : String
  email : String
  status : String
  statusDatetime : Nat
  statusDetails : String
deriving Repr, DecidableEq

/-- A `Signature` row: backend envelope id, document (name and content
bytes, bytes as a `String`), and its owned signers. -/
structure Signature where
  signatureBackendId : String
  documentName : String
  documentContent : String
  signers : List Signer
deriving Repr, DecidableEq

/-- The parsed view of the notification body that
`SignatureCallbackView` navigates with `BeautifulSoup`:
`EnvelopeStatus.EnvelopeID.string`,
`...RecipientStatus.Status.string` (`none` when the tag is absent or
empty, which is what `.string` returning `None` means),
`...RecipientStatus.ClientUserId.string`, and
`...RecipientStatus.DeclineReason.string`, where `none` models an
absent `DeclineReason` tag (attribute access returns `None`, so the
subsequent `.string` raises `AttributeError`). -/
structure Notification where
  envelopeID : String
  status : Option String
  clientUserId : String
  declineReason : Option String
deriving Repr, DecidableEq

/-- External collaborators: the DocuSign client
(`signature_backend.docusign_client`) whose two calls may each fail
with a network error, and the Django storage backing
`signature.document.save` (`storeOk = false` models a storage failure
raised by the save call). -/
structure Env where
  getEnvelopeDocumentList : String → Except Unit (List DocumentId)
  getEnvelopeDocument : String → DocumentId → Except Unit String
  storeOk : Bool

/-- Result of one `update_signature` call: the persisted database after
whatever saves ran, the outcome (`ok` or the raised exception), and
whether `document.close()` was reached. -/
structure ProcResult where
  db : List Signature
  outcome : Except ProcError Unit
  docClosed : Bool
deriving Repr

instance : DecidableEq (Except ProcError Unit) := fun a b =>
  match a, b with
  | .ok (), .ok () => isTrue rfl
  | .ok (), .error _ => isFalse fun h => Except.noConfusion h
  | .error _, .ok () => isFalse fun h => Except.noConfusion h
  | .error e, .error f =>
    if h : e = f then isTrue (by rw [h])
    else isFalse fun hh => h (by cases hh; rfl)

instance : DecidableEq ProcResult := fun a b =>
  if h : a.db = b.db ∧ a.outcome = b.outcome ∧ a.docClosed = b.docClosed then
    isTrue (by obtain ⟨h1, h2, h3⟩ := h; cases a; cases b; simp_all)
  else
    isFalse fun hh => h (by cases hh; exact ⟨rfl, rfl, rfl⟩)

/-- `Signature.objects.get(signature_backend_id=envelope_id)`:
backend ids are unique, so `find?` is the lookup; `none` is
`DoesNotExist`. -/
def findSignature (db : List Signature) (envelopeId : String) : Option Signature :=
  db.find? fun sig => sig.signatureBackendId == envelopeId

/-- `self.signature.signers.get(pk=signer_id)`: `none` is
`DoesNotExist`. -/
def findSigner (sig : Signature) (signerId : String) : Option Signer :=
  sig.signers.find? fun sg => sg.pk == signerId

/-- Replace the signer row with `g`'s primary key by `g` inside one
signature. -/
def updSig (g : Signer) (sig : Signature) : Signature :=
  { sig with signers := sig.signers.map fun x => if x.pk == g.pk then g else x }

/-- `signer.save()`: update the signer row with this primary key,
wherever it lives. -/
def saveSigner (db : List Signature) (g : Signer) : List Signature :=
  db.map (updSig g)

/-- Set the document name and content on the signature row whose
backend id is `sigId`. -/
def updDoc (sigId name content : String) (sig : Signature) : Signature :=
  if sig.signatureBackendId == sigId then
    { sig with documentName := name, documentContent := content }
  else sig

/-- `signature.document.save(filename, ContentFile(...), save=True)`:
persist the new document name and content on the signature row with
this backend id.  The preceding `document.delete(save=False)` removes
the old blob without persisting the model, so its persisted effect is
subsumed by this save. -/
def saveSignatureDocument (db : List Signature) (sigId name content : String) :
    List Signature :=
  db.map (updDoc sigId name content)

/-- The allowed status vocabulary, as in `update_signature`. -/
def allowed_status_list : List String := ["sent", "delivered", "completed", "declined"]

/-- `SignatureCallbackView.update_signer_status`: resolve the lazy
`self.signer` property (which first resolves `self.signature`), set
`status` and `status_datetime = now()`, and save.  Returns the database
after the save together with the in-memory signer object (the memoized
`self._signer`, which `signature_declined` keeps using). -/
def update_signer_status (db : List Signature) (n : Notification) (status : String)
    (t : Nat) : Except ProcError (List Signature × Signer) :=
  match findSignature db n.envelopeID with
  | none => .error (.unknownEnvelope n.envelopeID)
  | some sig =>
    match findSigner sig n.clientUserId with
    | none => .error (.unknownSigner n.clientUserId)
    | some sg =>
      let g := { sg with status := status, statusDatetime := t }
      .ok (saveSigner db g, g)

/-- `SignatureCallbackView.signature_sent`. -/
def signature_sent (db : List Signature) (n : Notification) (t : Nat) : ProcResult :=
  match update_signer_status db n "sent" t with
  | .error e => ⟨db, .error e, false⟩
  | .ok (db1, _) => ⟨db1, .ok (), false⟩

/-- `SignatureCallbackView.signature_delivered`. -/
def signature_delivered (db : List Signature) (n : Notification) (t : Nat) : ProcResult :=
  match update_signer_status db n "delivered" t with
  | .error e => ⟨db, .error e, false⟩
  | .ok (db1, _) => ⟨db1, .ok (), false⟩

/-- `SignatureCallbackView.signature_completed`, line by line:
resolve `self.signature` (line 229), ask the client for the document
list, index its first entry (`document_list[0]`), fetch that document,
delete the old blob and save the fetched bytes under the original
filename, `document.close()`, and only then
`update_signer_status(status='completed')` — which is where
`self.signer` is first resolved. -/
def signature_completed (env : Env) (db : List Signature) (n : Notification)
    (t : Nat) : ProcResult :=
  match findSignature db n.envelopeID with
  | none => ⟨db, .error (.unknownEnvelope n.envelopeID), false⟩
  | some sig =>
    let envelope_id := sig.signatureBackendId
    match env.getEnvelopeDocumentList envelope_id with
    | .error _ => ⟨db, .error .documentRetrievalFailed, false⟩
    | .ok document_list =>
      match document_list with
      | [] => ⟨db, .error .indexError, false⟩
      | document_id :: _ =>
        match env.getEnvelopeDocument envelope_id document_id with
        | .error _ => ⟨db, .error .documentRetrievalFailed, false⟩
        | .ok docBytes =>
          let filename := sig.documentName
          if env.storeOk then
            let db1 := saveSignatureDocument db envelope_id filename docBytes
            match findSigner sig n.clientUserId with
            | none => ⟨db1, .error (.unknownSigner n.clientUserId), true⟩
            | some sg =>
              let g := { sg with status := "completed", statusDatetime := t }
              ⟨saveSigner db1 g, .ok (), true⟩
          else ⟨db, .error .storeFailed, false⟩

/-- `SignatureCallbackView.signature_declined`: first
`update_signer_status(status='declined')` saves the signer, then the
decline reason is extracted from the parsed body and the signer is
saved a second time.  If the `DeclineReason` tag is absent the
extraction raises `AttributeError` between the two saves. -/
def signature_declined (db : List Signature) (n : Notification) (t : Nat) : ProcResult :=
  match update_signer_status db n "declined" t with
  | .error e => ⟨db, .error e, false⟩
  | .ok (db1, g) =>
    match n.declineReason with
    | none => ⟨db1, .error .attributeError, false⟩
    | some reason => ⟨saveSigner db1 { g with statusDetails := reason }, .ok (), false⟩

/-- `SignatureCallbackView.update_signature`: check the parsed status
string for `None`, lower-case it, validate it against the allowed
vocabulary, and dispatch to `signature_{status}`. -/
def update_signature (env : Env) (db : List Signature) (n : Notification)
    (t : Nat) : ProcResult :=
  match n.status with
  | none => ⟨db, .error .malformedNotification, false⟩
  | some raw =>
    let status := lowerString raw
    if status ∈ allowed_status_list then
      if status = "sent" then signature_sent db n t
      else if status = "delivered" then signature_delivered db n t
      else if status = "completed" then signature_completed env db n t
      else signature_declined db n t
    else ⟨db, .error (.unknownStatus status), false⟩

/-- Resolve the signer a notification addresses in a given database
state (used to state what processing did to the persisted signer). -/
def signerIn (db : List Signature) (envelopeId signerId : String) : Option Signer :=
  match findSignature db envelopeId with
  | none => none
  | some sig => findSigner sig signerId

-- Concrete fixtures used by examples and witnesses.

/-- A signer as created by `CreateSignatureView.form_valid`. -/
def signerW : Signer :=
  { pk := "7", fullName := "John Accentué", email := "john@example.com",
    status := "draft", statusDatetime := 0, statusDetails := "" }

/-- A signature owning `signerW`, with an uploaded document. -/
def signatureW : Signature :=
  { signatureBackendId := "env-123", documentName := "contract.pdf",
    documentContent := "OLD-CONTENT", signers := [signerW] }

def dbW : List Signature := [signatureW]

/-- A provider where the envelope has one document with fetchable bytes. -/
def envHappy : Env :=
  { getEnvelopeDocumentList := fun _ => .ok ["1"],
    getEnvelopeDocument := fun _ _ => .ok "PDF-CONTENT",
    storeOk := true }

/-- A provider whose document fetch fails with a network error. -/
def envFetchFails : Env :=
  { getEnvelopeDocumentList := fun _ => .ok ["1"],
    getEnvelopeDocument := fun _ _ => .error (),
    storeOk := true }

/-- A provider reporting an empty document list for every envelope. -/
def envEmptyList : Env :=
  { getEnvelopeDocumentList := fun _ => .ok [],
    getEnvelopeDocument := fun _ _ => .error (),
    storeOk := true }

/-- A provider that serves the document, but the local store fails. -/
def envStoreFails : Env :=
  { getEnvelopeDocumentList := fun _ => .ok ["1"],
    getEnvelopeDocument := fun _ _ => .ok "PDF-CONTENT",
    storeOk := false }

def notifW (status : String) : Notification :=
  { envelopeID := "env-123", status := some status, clientUserId := "7",
    declineReason := none }

/-- A notification with arbitrary correlation ids (and no decline
reason). -/
def notifAt (envId cuid status : String) : Notification :=
  { envelopeID := envId, status := some status, clientUserId := cuid,
    declineReason := none }

/-- A "declined" notification carrying the spec's example reason. -/
def notifDeclinedW : Notification :=
  { envelopeID := "env-123", status := some "declined", clientUserId := "7",
    declineReason := some "price too high" }

/-- A notification whose `Status` tag is absent or empty
(`.string` is `None`). -/
def notifNoStatus : Notification :=
  { envelopeID := "env-123", status := none, clientUserId := "7",
    declineReason := none }

/-- A signer that already went through earlier callbacks: it carries a
previous status, timestamp and a non-empty status detail. -/
def signerPrior : Signer :=
  { pk := "7", fullName := "John Accentué", email := "john@example.com",
    status := "sent", statusDatetime := 3, statusDetails := "old-detail" }

/-- A signature owning `signerPrior`. -/
def signaturePrior : Signature :=
  { signatureBackendId := "env-123", documentName := "contract.pdf",
    documentContent := "OLD-CONTENT", signers := [signerPrior] }

/-- A database whose only signature owns `signerPrior`. -/
def dbPrior : List Signature := [signaturePrior]

/-- A provider with a two-document envelope; only document id "1" is
fetchable, which suffices because the code only ever fetches the first
entry. -/
def envTwoDocs : Env :=
  { getEnvelopeDocumentList := fun _ => .ok ["1", "2"],
    getEnvelopeDocument := fun _ d => if d = "1" then .ok "PDF-CONTENT" else .error (),
    storeOk := true }

example :
    (update_signature envHappy dbW (notifW "sent") 5).outcome = .ok () := by decide

example :
    signerIn (update_signature envHappy dbW (notifW "sent") 5).db "env-123" "7" =
      some { signerW with status := "sent", statusDatetime := 5 } := by decide

example :
    (update_signature envHappy dbW (notifW "completed") 5).db =
      [{ signatureW with
          documentContent := "PDF-CONTENT"
          signers := [{ signerW with status := "completed", statusDatetime := 5 }] }] := by
  decide

example :
    update_signature envFetchFails dbW (notifW "completed") 5 =
      ⟨dbW, .error .documentRetrievalFailed, false⟩ := by decide

/-! ## Helper lemmas about lookups and saves -/

theorem findSigner_pk {sig : Signature} {signerId : String} {sg : Signer}
    (h : findSigner sig signerId = some sg) : sg.pk = signerId := by
  have hp := List.find?_some h
  simpa [beq_iff_eq] using hp

theorem findSignature_id {db : List Signature} {envId : String} {sig : Signature}
    (h : findSignature db envId = some sig) : sig.signatureBackendId = envId := by
  have hp := List.find?_some h
  simpa [beq_iff_eq] using hp

theorem find?_map_of_pred {α : Type} (f : α → α) (p : α → Bool)
    (hp : ∀ a, p (f a) = p a) (l : List α) :
    (l.map f).find? p = (l.find? p).map f := by
  induction l with
  | nil => rfl
  | cons a as ih =>
    simp only [List.map_cons, List.find?, hp a]
    cases h : p a
    · exact ih
    · rfl

theorem updDoc_id (sigId name content : String) (sig : Signature) :
    (updDoc sigId name content sig).signatureBackendId = sig.signatureBackendId := by
  unfold updDoc
  split <;> rfl

theorem updDoc_signers (sigId name content : String) (sig : Signature) :
    (updDoc sigId name content sig).signers = sig.signers := by
  unfold updDoc
  split <;> rfl

theorem findSignature_saveSigner (db : List Signature) (g : Signer) (envId : String) :
    findSignature (saveSigner db g) envId = (findSignature db envId).map (updSig g) := by
  unfold findSignature saveSigner
  exact find?_map_of_pred (updSig g)
    (fun sig => sig.signatureBackendId == envId) (fun a => rfl) db

theorem findSignature_saveSignatureDocument (db : List Signature)
    (sigId name content envId : String) :
    findSignature (saveSignatureDocument db sigId name content) envId =
      (findSignature db envId).map (updDoc sigId name content) := by
  unfold findSignature saveSignatureDocument
  exact find?_map_of_pred (updDoc sigId name content)
    (fun sig => sig.signatureBackendId == envId)
    (fun a => by simp only [updDoc_id]) db

theorem find?_update_list (l : List Signer) (signerId : String) (sg g : Signer)
    (hg : g.pk = signerId)
    (h : l.find? (fun x => x.pk == signerId) = some sg) :
    (l.map fun x => if x.pk == g.pk then g else x).find?
      (fun x => x.pk == signerId) = some g := by
  induction l with
  | nil => simp at h
  | cons a as ih =>
    rw [List.map_cons]
    by_cases ha : a.pk = signerId
    · have h1 : (if a.pk == g.pk then g else a) = g :=
        if_pos (beq_iff_eq.mpr (ha.trans hg.symm))
      rw [h1]
      exact List.find?_cons_of_pos _ (beq_iff_eq.mpr hg)
    · have hb : (a.pk == signerId) = false := by
        rw [Bool.eq_false_iff]
        exact fun hc => ha (beq_iff_eq.mp hc)
      have h1 : (if a.pk == g.pk then g else a) = a :=
        if_neg (fun hc => ha ((beq_iff_eq.mp hc).trans hg))
      rw [h1]
      simp only [List.find?, hb] at h ⊢
      exact ih h

theorem findSigner_updSig {sig : Signature} {signerId : String} {sg g : Signer}
    (h : findSigner sig signerId = some sg) (hg : g.pk = sg.pk) :
    findSigner (updSig g sig) signerId = some g := by
  have hgid : g.pk = signerId := hg.trans (findSigner_pk h)
  unfold findSigner at h
  unfold findSigner updSig
  exact find?_update_list sig.signers signerId sg g hgid h

theorem signerIn_saveSigner {db : List Signature} {envId signerId : String}
    {sig : Signature} {sg : Signer} {g : Signer}
    (hsig : findSignature db envId = some sig)
    (hsg : findSigner sig signerId = some sg)
    (hg : g.pk = sg.pk) :
    signerIn (saveSigner db g) envId signerId = some g := by
  unfold signerIn
  rw [findSignature_saveSigner, hsig, Option.map_some']
  exact findSigner_updSig hsg hg

/-! ## Dispatch lemmas: `update_signature` under each resolved status -/

theorem update_signature_status_none (env : Env) (db : List Signature)
    (n : Notification) (t : Nat) (h : n.status = none) :
    update_signature env db n t = ⟨db, .error .malformedNotification, false⟩ := by
  unfold update_signature
  rw [h]

theorem update_signature_status_unknown (env : Env) (db : List Signature)
    (n : Notification) (t : Nat) (raw : String) (h : n.status = some raw)
    (hmem : lowerString raw ∉ allowed_status_list) :
    update_signature env db n t =
      ⟨db, .error (.unknownStatus (lowerString raw)), false⟩ := by
  simp only [update_signature, h]
  rw [if_neg hmem]

theorem update_signature_status_sent (env : Env) (db : List Signature)
    (n : Notification) (t : Nat) (raw : String) (h : n.status = some raw)
    (hcase : lowerString raw = "sent") :
    update_signature env db n t = signature_sent db n t := by
  simp only [update_signature, h]
  simp [hcase, allowed_status_list]

theorem update_signature_status_delivered (env : Env) (db : List Signature)
    (n : Notification) (t : Nat) (raw : String) (h : n.status = some raw)
    (hcase : lowerString raw = "delivered") :
    update_signature env db n t = signature_delivered db n t := by
  simp only [update_signature, h]
  simp [hcase, allowed_status_list]

theorem update_signature_status_completed (env : Env) (db : List Signature)
    (n : Notification) (t : Nat) (raw : String) (h : n.status = some raw)
    (hcase : lowerString raw = "completed") :
    update_signature env db n t = signature_completed env db n t := by
  simp only [update_signature, h]
  simp [hcase, allowed_status_list]

theorem update_signature_status_declined (env : Env) (db : List Signature)
    (n : Notification) (t : Nat) (raw : String) (h : n.status = some raw)
    (hcase : lowerString raw = "declined") :
    update_signature env db n t = signature_declined db n t := by
  simp only [update_signature, h]
  simp [hcase, allowed_status_list]

theorem update_signer_status_resolved {db : List Signature} {n : Notification}
    {sig : Signature} {sg : Signer} (status : String) (t : Nat)
    (hsig : findSignature db n.envelopeID = some sig)
    (hsg : findSigner sig n.clientUserId = some sg) :
    update_signer_status db n status t =
      .ok (saveSigner db { sg with status := status, statusDatetime := t },
           { sg with status := status, statusDatetime := t }) := by
  simp only [update_signer_status, hsig, hsg]

theorem update_signer_status_no_signature {db : List Signature} {n : Notification}
    (status : String) (t : Nat)
    (hsig : findSignature db n.envelopeID = none) :
    update_signer_status db n status t = .error (.unknownEnvelope n.envelopeID) := by
  simp only [update_signer_status, hsig]

theorem update_signer_status_no_signer {db : List Signature} {n : Notification}
    {sig : Signature} (status : String) (t : Nat)
    (hsig : findSignature db n.envelopeID = some sig)
    (hsg : findSigner sig n.clientUserId = none) :
    update_signer_status db n status t = .error (.unknownSigner n.clientUserId) := by
  simp only [update_signer_status, hsig, hsg]

theorem findSignature_saveSigner_some {db : List Signature} {envId : String}
    {sig : Signature} (g : Signer) (hsig : findSignature db envId = some sig) :
    findSignature (saveSigner db g) envId = some (updSig g sig) := by
  rw [findSignature_saveSigner, hsig, Option.map_some']

theorem findSignature_saveSignatureDocument_some {db : List Signature} {envId : String}
    {sig : Signature} (sigId name content : String)
    (hsig : findSignature db envId = some sig) :
    findSignature (saveSignatureDocument db sigId name content) envId =
      some (updDoc sigId name content sig) := by
  rw [findSignature_saveSignatureDocument, hsig, Option.map_some']

theorem findSigner_updDoc (sigId name content : String) (sig : Signature)
    (cuid : String) :
    findSigner (updDoc sigId name content sig) cuid = findSigner sig cuid := by
  unfold findSigner
  rw [updDoc_signers]

theorem updDoc_self (name content : String) (sig : Signature) :
    updDoc sig.signatureBackendId name content sig =
      { sig with documentName := name, documentContent := content } := by
  unfold updDoc
  rw [if_pos (beq_iff_eq.mpr rfl)]

theorem signerIn_some {db : List Signature} {envId cuid : String} {sig : Signature}
    (hsig : findSignature db envId = some sig) :
    signerIn db envId cuid = findSigner sig cuid := by
  unfold signerIn
  rw [hsig]

/-! ## Claim theorems -/

/-- C3: a notification whose status field is absent/empty fails with
`malformedNotification`, and one whose lower-cased status value is
outside {sent, delivered, completed, declined} fails with
`unknownStatus`; in both cases the database is returned unchanged, so
no Signer or Signature mutation is persisted. -/
theorem c3_invalid_status_no_persistence (env : Env) (db : List Signature)
    (n : Notification) (t : Nat) :
    (n.status = none →
      update_signature env db n t = ⟨db, .error .malformedNotification, false⟩) ∧
    (∀ raw, n.status = some raw → lowerString raw ∉ allowed_status_list →
      update_signature env db n t =
        ⟨db, .error (.unknownStatus (lowerString raw)), false⟩) :=
  ⟨fun h => update_signature_status_none env db n t h,
   fun raw h hmem => update_signature_status_unknown env db n t raw h hmem⟩

/-- C3 witness: a "Voided" notification is rejected as unknown status
and the database is untouched. -/
theorem c3_invalid_status_no_persistence_witness :
    update_signature envHappy dbW (notifW "Voided") 5 =
      ⟨dbW, .error (.unknownStatus (lowerString "Voided")), false⟩ :=
  (c3_invalid_status_no_persistence envHappy dbW (notifW "Voided") 5).2
    "Voided" rfl (by decide)

/-- C9: on a "completed" notification, when the provider's document
list is empty, the unguarded `document_list[0]` raises IndexError
before any write: processing returns the database unchanged — the
Signer's status and the Signature's document are untouched and the
Signer is never marked completed. -/
theorem c9_completed_empty_document_list_aborts_unchanged
    (env : Env) (db : List Signature) (n : Notification) (t : Nat)
    (raw : String) (sig : Signature)
    (hraw : n.status = some raw) (hcase : lowerString raw = "completed")
    (hsig : findSignature db n.envelopeID = some sig)
    (hlist : env.getEnvelopeDocumentList sig.signatureBackendId = .ok []) :
    update_signature env db n t = ⟨db, .error .indexError, false⟩ := by
  rw [update_signature_status_completed env db n t raw hraw hcase]
  simp only [signature_completed, hsig, hlist]

/-- C9 witness: with the empty-list provider, the completed
notification leaves the concrete database unchanged. -/
theorem c9_completed_empty_document_list_aborts_unchanged_witness :
    update_signature envEmptyList dbW (notifW "completed") 5 =
      ⟨dbW, .error .indexError, false⟩ :=
  c9_completed_empty_document_list_aborts_unchanged envEmptyList dbW
    (notifW "completed") 5 "completed" signatureW rfl (by decide) (by decide) rfl

/-- C4: on a "completed" notification, given the provider returns a
document list whose first entry is `d` (any further entries `ds` are
ignored — only the first entry's document id is fetched) and fetching
`d` yields `bytes`, the Signature's stored document is replaced with
exactly `bytes` under the original filename, and the Signer is marked
completed. -/
theorem c4_completed_replaces_document
    (env : Env) (db : List Signature) (n : Notification) (t : Nat)
    (raw : String) (sig : Signature) (sg : Signer) (d : DocumentId)
    (ds : List DocumentId) (bytes : String)
    (hraw : n.status = some raw) (hcase : lowerString raw = "completed")
    (hsig : findSignature db n.envelopeID = some sig)
    (hsg : findSigner sig n.clientUserId = some sg)
    (hlist : env.getEnvelopeDocumentList sig.signatureBackendId = .ok (d :: ds))
    (hfetch : env.getEnvelopeDocument sig.signatureBackendId d = .ok bytes)
    (hstore : env.storeOk = true) :
    ∃ sig2,
      findSignature (update_signature env db n t).db n.envelopeID = some sig2 ∧
      sig2.documentContent = bytes ∧
      sig2.documentName = sig.documentName ∧
      findSigner sig2 n.clientUserId =
        some { sg with status := "completed", statusDatetime := t } ∧
      (update_signature env db n t).outcome = .ok () := by
  rw [update_signature_status_completed env db n t raw hraw hcase]
  have hred : signature_completed env db n t =
      ⟨saveSigner
          (saveSignatureDocument db sig.signatureBackendId sig.documentName bytes)
          { sg with status := "completed", statusDatetime := t },
        .ok (), true⟩ := by
    simp only [signature_completed, hsig, hlist, hfetch, hstore, if_true, hsg]
  rw [hred]
  refine ⟨updSig { sg with status := "completed", statusDatetime := t }
      (updDoc sig.signatureBackendId sig.documentName bytes sig), ?_, ?_, ?_, ?_, rfl⟩
  · exact findSignature_saveSigner_some _
      (findSignature_saveSignatureDocument_some _ _ _ hsig)
  · rw [updDoc_self]; rfl
  · rw [updDoc_self]; rfl
  · rw [updDoc_self]
    exact findSigner_updSig hsg rfl

/-- C4 witness: with a two-document envelope whose first document
carries "PDF-CONTENT", the concrete signature's document becomes
exactly "PDF-CONTENT" under the original filename and the signer is
completed. -/
theorem c4_completed_replaces_document_witness :
    ∃ sig2,
      findSignature (update_signature envTwoDocs dbW (notifW "completed") 5).db
          (notifW "completed").envelopeID = some sig2 ∧
      sig2.documentContent = "PDF-CONTENT" ∧
      sig2.documentName = signatureW.documentName ∧
      findSigner sig2 (notifW "completed").clientUserId =
        some { signerW with status := "completed", statusDatetime := 5 } ∧
      (update_signature envTwoDocs dbW (notifW "completed") 5).outcome = .ok () :=
  c4_completed_replaces_document envTwoDocs dbW (notifW "completed") 5 "completed"
    signatureW signerW "1" ["2"] "PDF-CONTENT" rfl (by decide) (by decide) (by decide)
    rfl rfl rfl

/-- C1 counterexample: with a provider whose document fetch fails, a
"completed" notification that resolves to an existing Signature and
Signer reports the retrieval failure but the Signer's persisted status
is NOT completed — it is still the prior "draft" — because the status
write is not performed before document replacement. -/
theorem c1_counterexample :
    (update_signature envFetchFails dbW (notifW "completed") 5).outcome =
        .error .documentRetrievalFailed ∧
    signerIn (update_signature envFetchFails dbW (notifW "completed") 5).db
        "env-123" "7" = some signerW ∧
    signerW.status ≠ "completed" := by decide

/-- C1 (amended): for every "completed" notification, document
replacement is attempted FIRST and the completed status write happens
only afterwards: when the document fetch fails, processing aborts with
`documentRetrievalFailed` and nothing is persisted — the database,
including the matched Signer's status, is unchanged (in particular the
Signer is not marked completed). -/
theorem c1_fetch_failure_leaves_status_unwritten
    (env : Env) (db : List Signature) (n : Notification) (t : Nat)
    (raw : String) (sig : Signature) (d : DocumentId) (ds : List DocumentId)
    (hraw : n.status = some raw) (hcase : lowerString raw = "completed")
    (hsig : findSignature db n.envelopeID = some sig)
    (hlist : env.getEnvelopeDocumentList sig.signatureBackendId = .ok (d :: ds))
    (hfetch : env.getEnvelopeDocument sig.signatureBackendId d = .error ()) :
    update_signature env db n t = ⟨db, .error .documentRetrievalFailed, false⟩ := by
  rw [update_signature_status_completed env db n t raw hraw hcase]
  simp only [signature_completed, hsig, hlist, hfetch]

/-- C1 witness: the amended behavior at the concrete failing-fetch
provider. -/
theorem c1_fetch_failure_leaves_status_unwritten_witness :
    update_signature envFetchFails dbW (notifW "completed") 5 =
      ⟨dbW, .error .documentRetrievalFailed, false⟩ :=
  c1_fetch_failure_leaves_status_unwritten envFetchFails dbW (notifW "completed") 5
    "completed" signatureW "1" [] rfl (by decide) (by decide) rfl rfl

/-- C5 counterexample: a "declined" notification with no DeclineReason
element does not set the status detail to the empty string and does
not succeed: processing raises AttributeError after Declined is
persisted, and the previous (non-empty) detail value is kept. -/
theorem c5_counterexample :
    (update_signature envHappy dbPrior (notifW "declined") 5).outcome =
        .error .attributeError ∧
    signerIn (update_signature envHappy dbPrior (notifW "declined") 5).db
        "env-123" "7" =
      some { signerPrior with status := "declined", statusDatetime := 5 } ∧
    signerPrior.statusDetails ≠ "" := by decide

/-- C5 (amended): for every "declined" notification, when the decline
reason is present with value r the matched Signer is persisted with
status declined, a fresh timestamp and status detail equal to r; when
the DeclineReason element is missing, processing raises AttributeError
after the Declined status write, leaving the previous status detail
unchanged — it is not set to the empty string. -/
theorem c5_declined_detail (env : Env) (db : List Signature) (n : Notification)
    (t : Nat) (raw : String) (sig : Signature) (sg : Signer)
    (hraw : n.status = some raw) (hcase : lowerString raw = "declined")
    (hsig : findSignature db n.envelopeID = some sig)
    (hsg : findSigner sig n.clientUserId = some sg) :
    (∀ r, n.declineReason = some r →
      signerIn (update_signature env db n t).db n.envelopeID n.clientUserId =
        some { sg with status := "declined", statusDatetime := t, statusDetails := r } ∧
      (update_signature env db n t).outcome = .ok ()) ∧
    (n.declineReason = none →
      signerIn (update_signature env db n t).db n.envelopeID n.clientUserId =
        some { sg with status := "declined", statusDatetime := t } ∧
      (update_signature env db n t).outcome = .error .attributeError) := by
  rw [update_signature_status_declined env db n t raw hraw hcase]
  constructor
  · intro r hr
    have hred : signature_declined db n t =
        ⟨saveSigner (saveSigner db { sg with status := "declined", statusDatetime := t })
            { sg with status := "declined", statusDatetime := t, statusDetails := r },
          .ok (), false⟩ := by
      simp only [signature_declined, update_signer_status_resolved "declined" t hsig hsg,
        hr]
    rw [hred]
    refine ⟨?_, rfl⟩
    have h1 := findSignature_saveSigner_some
      { sg with status := "declined", statusDatetime := t } hsig
    have h2 : findSigner (updSig { sg with status := "declined", statusDatetime := t } sig)
        n.clientUserId = some { sg with status := "declined", statusDatetime := t } :=
      findSigner_updSig hsg rfl
    exact signerIn_saveSigner h1 h2 rfl
  · intro hr
    have hred : signature_declined db n t =
        ⟨saveSigner db { sg with status := "declined", statusDatetime := t },
          .error .attributeError, false⟩ := by
      simp only [signature_declined, update_signer_status_resolved "declined" t hsig hsg,
        hr]
    rw [hred]
    exact ⟨signerIn_saveSigner hsig hsg rfl, rfl⟩

/-- C5 witness: on the spec's example, the persisted signer's detail
equals "price too high". -/
theorem c5_declined_detail_witness :
    signerIn (update_signature envHappy dbW notifDeclinedW 5).db
        notifDeclinedW.envelopeID notifDeclinedW.clientUserId =
      some { signerW with status := "declined", statusDatetime := 5, statusDetails := "price too high" } ∧
    (update_signature envHappy dbW notifDeclinedW 5).outcome = .ok () :=
  (c5_declined_detail envHappy dbW notifDeclinedW 5 "declined" signatureW signerW
    rfl (by decide) (by decide) (by decide)).1 "price too high" rfl

/-- C10: `signature_declined` persists the Signer twice — first with
status declined and a fresh timestamp, then again with the extracted
decline reason; consequently, when the DeclineReason element is absent
the extraction raises after the first save, leaving the Signer
persisted as declined with its previous status-detail value. -/
theorem c10_declined_persists_twice (env : Env) (db : List Signature)
    (n : Notification) (t : Nat) (raw : String) (sig : Signature) (sg : Signer)
    (hraw : n.status = some raw) (hcase : lowerString raw = "declined")
    (hsig : findSignature db n.envelopeID = some sig)
    (hsg : findSigner sig n.clientUserId = some sg) :
    (∀ r, n.declineReason = some r →
      update_signature env db n t =
        ⟨saveSigner (saveSigner db { sg with status := "declined", statusDatetime := t })
            { sg with status := "declined", statusDatetime := t, statusDetails := r },
          .ok (), false⟩) ∧
    (n.declineReason = none →
      update_signature env db n t =
        ⟨saveSigner db { sg with status := "declined", statusDatetime := t },
          .error .attributeError, false⟩) := by
  rw [update_signature_status_declined env db n t raw hraw hcase]
  constructor
  · intro r hr
    simp only [signature_declined, update_signer_status_resolved "declined" t hsig hsg,
      hr]
  · intro hr
    simp only [signature_declined, update_signer_status_resolved "declined" t hsig hsg,
      hr]

/-- C10 witness: the absent-DeclineReason case at a concrete database
whose signer has a previous non-empty detail: the detail survives. -/
theorem c10_declined_persists_twice_witness :
    update_signature envHappy dbPrior (notifW "declined") 5 =
      ⟨saveSigner dbPrior { signerPrior with status := "declined", statusDatetime := 5 },
        .error .attributeError, false⟩ :=
  (c10_declined_persists_twice envHappy dbPrior (notifW "declined") 5 "declined"
    signaturePrior signerPrior rfl (by decide) (by decide) (by decide)).2 rfl

/-- C2 counterexample: a "completed" notification whose envelope id and
client-user id resolve to an existing Signature and Signer, processed
against a provider with an empty document list: the Signer's status is
not set to completed and its timestamp is not refreshed — the
persisted Signer is untouched (still "draft" from time 0). -/
theorem c2_counterexample :
    signerIn (update_signature envEmptyList dbW (notifW "completed") 5).db
        "env-123" "7" = some signerW ∧
    signerW.status ≠ "completed" ∧ signerW.statusDatetime ≠ 5 := by decide

/-- C2 (amended): for every notification whose lower-cased status is in
{sent, delivered, completed, declined} and whose envelope id and
client-user id resolve to an existing Signature and Signer, processing
persists that Signer with status equal to the lower-cased status string
and status timestamp equal to the current time — unconditionally for
sent, delivered and declined, and for completed provided the provider's
document list is non-empty, the document fetch succeeds and the store
succeeds. -/
theorem c2_valid_status_sets_status_and_timestamp
    (env : Env) (db : List Signature) (n : Notification) (t : Nat)
    (raw : String) (sig : Signature) (sg : Signer)
    (hraw : n.status = some raw)
    (hmem : lowerString raw ∈ allowed_status_list)
    (hsig : findSignature db n.envelopeID = some sig)
    (hsg : findSigner sig n.clientUserId = some sg)
    (hcomp : lowerString raw = "completed" →
      env.storeOk = true ∧ ∃ d ds bytes,
        env.getEnvelopeDocumentList sig.signatureBackendId = .ok (d :: ds) ∧
        env.getEnvelopeDocument sig.signatureBackendId d = .ok bytes) :
    ∃ g, signerIn (update_signature env db n t).db n.envelopeID n.clientUserId =
        some g ∧
      g.status = lowerString raw ∧ g.statusDatetime = t := by
  rcases (show lowerString raw = "sent" ∨ lowerString raw = "delivered" ∨
      lowerString raw = "completed" ∨ lowerString raw = "declined" by
        simpa [allowed_status_list] using hmem) with hc | hc | hc | hc
  · rw [update_signature_status_sent env db n t raw hraw hc]
    have hred : signature_sent db n t =
        ⟨saveSigner db { sg with status := "sent", statusDatetime := t }, .ok (), false⟩ := by
      simp only [signature_sent, update_signer_status_resolved "sent" t hsig hsg]
    rw [hred]
    exact ⟨{ sg with status := "sent", statusDatetime := t },
      signerIn_saveSigner hsig hsg rfl, hc.symm, rfl⟩
  · rw [update_signature_status_delivered env db n t raw hraw hc]
    have hred : signature_delivered db n t =
        ⟨saveSigner db { sg with status := "delivered", statusDatetime := t },
          .ok (), false⟩ := by
      simp only [signature_delivered, update_signer_status_resolved "delivered" t hsig hsg]
    rw [hred]
    exact ⟨{ sg with status := "delivered", statusDatetime := t },
      signerIn_saveSigner hsig hsg rfl, hc.symm, rfl⟩
  · obtain ⟨hstore, d, ds, bytes, hlist, hfetch⟩ := hcomp hc
    rw [update_signature_status_completed env db n t raw hraw hc]
    have hred : signature_completed env db n t =
        ⟨saveSigner
            (saveSignatureDocument db sig.signatureBackendId sig.documentName bytes)
            { sg with status := "completed", statusDatetime := t },
          .ok (), true⟩ := by
      simp only [signature_completed, hsig, hlist, hfetch, hstore, if_true, hsg]
    rw [hred]
    refine ⟨{ sg with status := "completed", statusDatetime := t }, ?_, hc.symm, rfl⟩
    have h1 := findSignature_saveSignatureDocument_some
      sig.signatureBackendId sig.documentName bytes hsig
    rw [updDoc_self] at h1
    have h2 : findSigner
        ({ sig with documentName := sig.documentName, documentContent := bytes } :
          Signature) n.clientUserId = some sg := hsg
    exact signerIn_saveSigner h1 h2 rfl
  · rw [update_signature_status_declined env db n t raw hraw hc]
    cases hdr : n.declineReason with
    | none =>
      have hred : signature_declined db n t =
          ⟨saveSigner db { sg with status := "declined", statusDatetime := t },
            .error .attributeError, false⟩ := by
        simp only [signature_declined, update_signer_status_resolved "declined" t hsig hsg,
          hdr]
      rw [hred]
      exact ⟨{ sg with status := "declined", statusDatetime := t },
        signerIn_saveSigner hsig hsg rfl, hc.symm, rfl⟩
    | some r =>
      have hred : signature_declined db n t =
          ⟨saveSigner (saveSigner db { sg with status := "declined", statusDatetime := t })
              { sg with status := "declined", statusDatetime := t, statusDetails := r },
            .ok (), false⟩ := by
        simp only [signature_declined, update_signer_status_resolved "declined" t hsig hsg,
          hdr]
      rw [hred]
      refine ⟨{ sg with status := "declined", statusDatetime := t, statusDetails := r },
        ?_, hc.symm, rfl⟩
      have h1 := findSignature_saveSigner_some
        { sg with status := "declined", statusDatetime := t } hsig
      have h2 : findSigner (updSig { sg with status := "declined", statusDatetime := t } sig)
          n.clientUserId = some { sg with status := "declined", statusDatetime := t } :=
        findSigner_updSig hsg rfl
      exact signerIn_saveSigner h1 h2 rfl

/-- C2 witness: an upper-case "SENT" notification (case-insensitive
matching) persists the signer with status "sent" at time 5. -/
theorem c2_valid_status_sets_status_and_timestamp_witness :
    ∃ g, signerIn (update_signature envHappy dbW (notifW "SENT") 5).db
        (notifW "SENT").envelopeID (notifW "SENT").clientUserId = some g ∧
      g.status = lowerString "SENT" ∧ g.statusDatetime = 5 :=
  c2_valid_status_sets_status_and_timestamp envHappy dbW (notifW "SENT") 5 "SENT"
    signatureW signerW rfl (by decide) (by decide) (by decide)
    (fun hcontra => absurd hcontra (by decide))

/-- C6 counterexample: when the replacement store fails after the
document was fetched, `document.close()` is never reached (there is no
try/finally), so the fetched-document resource is not released. -/
theorem c6_counterexample :
    (update_signature envStoreFails dbW (notifW "completed") 5).outcome =
        .error .storeFailed ∧
    (update_signature envStoreFails dbW (notifW "completed") 5).docClosed = false := by
  decide

/-- C6 (amended): during "completed" handling with a successful
document-list fetch and document fetch, the fetched-document resource
is closed exactly when the replacement store succeeds: close is
executed on the success path (even if the later signer lookup fails),
but a store failure after the fetch skips the close. -/
theorem c6_close_iff_store_succeeds
    (env : Env) (db : List Signature) (n : Notification) (t : Nat)
    (raw : String) (sig : Signature) (d : DocumentId) (ds : List DocumentId)
    (bytes : String)
    (hraw : n.status = some raw) (hcase : lowerString raw = "completed")
    (hsig : findSignature db n.envelopeID = some sig)
    (hlist : env.getEnvelopeDocumentList sig.signatureBackendId = .ok (d :: ds))
    (hfetch : env.getEnvelopeDocument sig.signatureBackendId d = .ok bytes) :
    (update_signature env db n t).docClosed = env.storeOk := by
  rw [update_signature_status_completed env db n t raw hraw hcase]
  simp only [signature_completed, hsig, hlist, hfetch]
  cases hso : env.storeOk
  · simp [hso]
  · cases hfs : findSigner sig n.clientUserId <;> simp [hso, hfs]

/-- C6 witness: on the happy provider the resource is closed. -/
theorem c6_close_iff_store_succeeds_witness :
    (update_signature envHappy dbW (notifW "completed") 5).docClosed =
      envHappy.storeOk :=
  c6_close_iff_store_succeeds envHappy dbW (notifW "completed") 5 "completed"
    signatureW "1" [] "PDF-CONTENT" rfl (by decide) (by decide) rfl rfl

/-- C7 counterexample: a "completed" notification with a valid envelope
but an unknown client-user id fails with unknownSigner, yet a mutation
HAS been applied: the Signature's document was already replaced before
the signer lookup ran. -/
theorem c7_counterexample :
    (update_signature envHappy dbW (notifAt "env-123" "nope" "completed") 5).outcome =
        .error (.unknownSigner "nope") ∧
    (update_signature envHappy dbW (notifAt "env-123" "nope" "completed") 5).db =
      [{ signatureW with documentContent := "PDF-CONTENT" }] ∧
    signatureW.documentContent ≠ "PDF-CONTENT" := by decide

/-- C7 (amended): an envelope id matching no Signature always fails
with unknownEnvelope and no mutation; a resolved envelope with a
client-user id matching no Signer fails with unknownSigner, with no
mutation for sent/delivered/declined — but for completed the
Signature's document replacement has already been persisted before the
signer lookup fails. -/
theorem c7_resolution_failures (env : Env) (db : List Signature) (n : Notification)
    (t : Nat) (raw : String)
    (hraw : n.status = some raw)
    (hmem : lowerString raw ∈ allowed_status_list) :
    (findSignature db n.envelopeID = none →
      update_signature env db n t =
        ⟨db, .error (.unknownEnvelope n.envelopeID), false⟩) ∧
    (∀ sig, findSignature db n.envelopeID = some sig →
      findSigner sig n.clientUserId = none →
      (lowerString raw ≠ "completed" →
        update_signature env db n t =
          ⟨db, .error (.unknownSigner n.clientUserId), false⟩) ∧
      (∀ d ds bytes, lowerString raw = "completed" →
        env.getEnvelopeDocumentList sig.signatureBackendId = .ok (d :: ds) →
        env.getEnvelopeDocument sig.signatureBackendId d = .ok bytes →
        env.storeOk = true →
        update_signature env db n t =
          ⟨saveSignatureDocument db sig.signatureBackendId sig.documentName bytes,
            .error (.unknownSigner n.clientUserId), true⟩)) := by
  rcases (show lowerString raw = "sent" ∨ lowerString raw = "delivered" ∨
      lowerString raw = "completed" ∨ lowerString raw = "declined" by
        simpa [allowed_status_list] using hmem) with hc | hc | hc | hc
  · refine ⟨?_, ?_⟩
    · intro hnone
      rw [update_signature_status_sent env db n t raw hraw hc]
      simp only [signature_sent, update_signer_status_no_signature "sent" t hnone]
    · intro sig hsig hnosg
      refine ⟨?_, ?_⟩
      · intro _
        rw [update_signature_status_sent env db n t raw hraw hc]
        simp only [signature_sent, update_signer_status_no_signer "sent" t hsig hnosg]
      · intro d ds bytes hcontra hl hf hs
        exact absurd (hc.symm.trans hcontra) (by decide)
  · refine ⟨?_, ?_⟩
    · intro hnone
      rw [update_signature_status_delivered env db n t raw hraw hc]
      simp only [signature_delivered,
        update_signer_status_no_signature "delivered" t hnone]
    · intro sig hsig hnosg
      refine ⟨?_, ?_⟩
      · intro _
        rw [update_signature_status_delivered env db n t raw hraw hc]
        simp only [signature_delivered,
          update_signer_status_no_signer "delivered" t hsig hnosg]
      · intro d ds bytes hcontra hl hf hs
        exact absurd (hc.symm.trans hcontra) (by decide)
  · refine ⟨?_, ?_⟩
    · intro hnone
      rw [update_signature_status_completed env db n t raw hraw hc]
      simp only [signature_completed, hnone]
    · intro sig hsig hnosg
      refine ⟨?_, ?_⟩
      · intro hne
        exact absurd hc hne
      · intro d ds bytes _ hl hf hs
        rw [update_signature_status_completed env db n t raw hraw hc]
        simp only [signature_completed, hsig, hl, hf, hs, if_true, hnosg]
  · refine ⟨?_, ?_⟩
    · intro hnone
      rw [update_signature_status_declined env db n t raw hraw hc]
      simp only [signature_declined, update_signer_status_no_signature "declined" t hnone]
    · intro sig hsig hnosg
      refine ⟨?_, ?_⟩
      · intro _
        rw [update_signature_status_declined env db n t raw hraw hc]
        simp only [signature_declined,
          update_signer_status_no_signer "declined" t hsig hnosg]
      · intro d ds bytes hcontra hl hf hs
        exact absurd (hc.symm.trans hcontra) (by decide)

/-- C7 witness: an envelope id matching no Signature fails with
unknownEnvelope and the database is unchanged. -/
theorem c7_resolution_failures_witness :
    update_signature envHappy dbW (notifAt "missing" "7" "sent") 5 =
      ⟨dbW, .error (.unknownEnvelope "missing"), false⟩ :=
  (c7_resolution_failures envHappy dbW (notifAt "missing" "7" "sent") 5 "sent" rfl
    (by decide)).1 (by decide)

theorem ProcResult_db (a : List Signature) (b : Except ProcError Unit) (c : Bool) :
    (ProcResult.mk a b c).db = a := rfl

theorem updSig_id (g : Signer) (sig : Signature) :
    (updSig g sig).signatureBackendId = sig.signatureBackendId := rfl

theorem signature_completed_resolved {env : Env} {db : List Signature}
    {n : Notification} {sig : Signature} {sg : Signer} (t : Nat)
    {d : DocumentId} {ds : List DocumentId} {bytes : String}
    (hsig : findSignature db n.envelopeID = some sig)
    (hsg : findSigner sig n.clientUserId = some sg)
    (hlist : env.getEnvelopeDocumentList sig.signatureBackendId = .ok (d :: ds))
    (hfetch : env.getEnvelopeDocument sig.signatureBackendId d = .ok bytes)
    (hstore : env.storeOk = true) :
    signature_completed env db n t =
      ⟨saveSigner
          (saveSignatureDocument db sig.signatureBackendId sig.documentName bytes)
          { sg with status := "completed", statusDatetime := t },
        .ok (), true⟩ := by
  simp only [signature_completed, hsig, hlist, hfetch, hstore, if_true, hsg]

/-- C8: reapplying the identical notification is idempotent on the
Signer's persisted state: a first processing persists some signer state
g1, and processing the same notification again persists g2 equal to g1
except for the refreshed status timestamp; for a "sent" notification
the status is "sent" after each of the two calls. -/
theorem c8_idempotent_reapplication
    (env : Env) (db : List Signature) (n : Notification) (t1 t2 : Nat)
    (raw : String) (sig : Signature) (sg : Signer)
    (hraw : n.status = some raw)
    (hmem : lowerString raw ∈ allowed_status_list)
    (hsig : findSignature db n.envelopeID = some sig)
    (hsg : findSigner sig n.clientUserId = some sg)
    (hcomp : lowerString raw = "completed" →
      env.storeOk = true ∧ ∃ d ds bytes,
        env.getEnvelopeDocumentList sig.signatureBackendId = .ok (d :: ds) ∧
        env.getEnvelopeDocument sig.signatureBackendId d = .ok bytes) :
    ∃ g1 g2,
      signerIn (update_signature env db n t1).db n.envelopeID n.clientUserId =
        some g1 ∧
      signerIn (update_signature env (update_signature env db n t1).db n t2).db
        n.envelopeID n.clientUserId = some g2 ∧
      g2 = { g1 with statusDatetime := t2 } ∧
      (lowerString raw = "sent" → g1.status = "sent" ∧ g2.status = "sent") := by
  rcases (show lowerString raw = "sent" ∨ lowerString raw = "delivered" ∨
      lowerString raw = "completed" ∨ lowerString raw = "declined" by
        simpa [allowed_status_list] using hmem) with hc | hc | hc | hc
  · have hred1 : update_signature env db n t1 =
        ⟨saveSigner db { sg with status := "sent", statusDatetime := t1 },
          .ok (), false⟩ := by
      rw [update_signature_status_sent env db n t1 raw hraw hc]
      simp only [signature_sent, update_signer_status_resolved "sent" t1 hsig hsg]
    have hsig1 := findSignature_saveSigner_some
      { sg with status := "sent", statusDatetime := t1 } hsig
    have hsg1 : findSigner (updSig { sg with status := "sent", statusDatetime := t1 } sig)
        n.clientUserId = some { sg with status := "sent", statusDatetime := t1 } :=
      findSigner_updSig hsg rfl
    have hred2 : update_signature env
        (saveSigner db { sg with status := "sent", statusDatetime := t1 }) n t2 =
        ⟨saveSigner (saveSigner db { sg with status := "sent", statusDatetime := t1 })
            { sg with status := "sent", statusDatetime := t2 }, .ok (), false⟩ := by
      rw [update_signature_status_sent env _ n t2 raw hraw hc]
      simp only [signature_sent, update_signer_status_resolved "sent" t2 hsig1 hsg1]
    rw [hred1, ProcResult_db, hred2, ProcResult_db]
    exact ⟨{ sg with status := "sent", statusDatetime := t1 },
      { sg with status := "sent", statusDatetime := t2 },
      signerIn_saveSigner hsig hsg rfl,
      signerIn_saveSigner hsig1 hsg1 rfl,
      rfl, fun _ => ⟨rfl, rfl⟩⟩
  · have hred1 : update_signature env db n t1 =
        ⟨saveSigner db { sg with status := "delivered", statusDatetime := t1 },
          .ok (), false⟩ := by
      rw [update_signature_status_delivered env db n t1 raw hraw hc]
      simp only [signature_delivered, update_signer_status_resolved "delivered" t1 hsig hsg]
    have hsig1 := findSignature_saveSigner_some
      { sg with status := "delivered", statusDatetime := t1 } hsig
    have hsg1 : findSigner
        (updSig { sg with status := "delivered", statusDatetime := t1 } sig)
        n.clientUserId = some { sg with status := "delivered", statusDatetime := t1 } :=
      findSigner_updSig hsg rfl
    have hred2 : update_signature env
        (saveSigner db { sg with status := "delivered", statusDatetime := t1 }) n t2 =
        ⟨saveSigner (saveSigner db { sg with status := "delivered", statusDatetime := t1 })
            { sg with status := "delivered", statusDatetime := t2 }, .ok (), false⟩ := by
      rw [update_signature_status_delivered env _ n t2 raw hraw hc]
      simp only [signature_delivered, update_signer_status_resolved "delivered" t2 hsig1 hsg1]
    rw [hred1, ProcResult_db, hred2, ProcResult_db]
    exact ⟨{ sg with status := "delivered", statusDatetime := t1 },
      { sg with status := "delivered", statusDatetime := t2 },
      signerIn_saveSigner hsig hsg rfl,
      signerIn_saveSigner hsig1 hsg1 rfl,
      rfl, fun hcontra => absurd (hc.symm.trans hcontra) (by decide)⟩
  · obtain ⟨hstore, d, ds, bytes, hlist, hfetch⟩ := hcomp hc
    set G1 : Signer := { sg with status := "completed", statusDatetime := t1 } with hG1
    set D1 : List Signature :=
      saveSignatureDocument db sig.signatureBackendId sig.documentName bytes with hD1
    set sig1 : Signature :=
      updSig G1 (updDoc sig.signatureBackendId sig.documentName bytes sig) with hs1
    have hred1 : update_signature env db n t1 = ⟨saveSigner D1 G1, .ok (), true⟩ := by
      rw [update_signature_status_completed env db n t1 raw hraw hc]
      exact signature_completed_resolved t1 hsig hsg hlist hfetch hstore
    have hsgD : findSigner (updDoc sig.signatureBackendId sig.documentName bytes sig)
        n.clientUserId = some sg := by
      rw [findSigner_updDoc]; exact hsg
    have hsig1 : findSignature (saveSigner D1 G1) n.envelopeID = some sig1 :=
      findSignature_saveSigner_some G1
        (findSignature_saveSignatureDocument_some _ _ _ hsig)
    have hsg1 : findSigner sig1 n.clientUserId = some G1 := findSigner_updSig hsgD rfl
    have hid : sig1.signatureBackendId = sig.signatureBackendId := by
      rw [hs1, updSig_id, updDoc_id]
    have hlist1 : env.getEnvelopeDocumentList sig1.signatureBackendId = .ok (d :: ds) := by
      rw [hid]; exact hlist
    have hfetch1 : env.getEnvelopeDocument sig1.signatureBackendId d = .ok bytes := by
      rw [hid]; exact hfetch
    have hred2 : update_signature env (saveSigner D1 G1) n t2 =
        ⟨saveSigner (saveSignatureDocument (saveSigner D1 G1) sig1.signatureBackendId
            sig1.documentName bytes)
            { G1 with status := "completed", statusDatetime := t2 },
          .ok (), true⟩ := by
      rw [update_signature_status_completed env _ n t2 raw hraw hc]
      exact signature_completed_resolved t2 hsig1 hsg1 hlist1 hfetch1 hstore
    have hsig2 : findSignature (saveSignatureDocument (saveSigner D1 G1)
        sig1.signatureBackendId sig1.documentName bytes) n.envelopeID =
        some (updDoc sig1.signatureBackendId sig1.documentName bytes sig1) :=
      findSignature_saveSignatureDocument_some _ _ _ hsig1
    have hsg2 : findSigner (updDoc sig1.signatureBackendId sig1.documentName bytes sig1)
        n.clientUserId = some G1 := by
      rw [findSigner_updDoc]; exact hsg1
    rw [hred1, ProcResult_db, hred2, ProcResult_db]
    exact ⟨G1, { G1 with status := "completed", statusDatetime := t2 },
      signerIn_saveSigner (findSignature_saveSignatureDocument_some _ _ _ hsig) hsgD rfl,
      signerIn_saveSigner hsig2 hsg2 rfl,
      rfl, fun hcontra => absurd (hc.symm.trans hcontra) (by decide)⟩
  · cases hdr : n.declineReason with
    | none =>
      have hred1 : update_signature env db n t1 =
          ⟨saveSigner db { sg with status := "declined", statusDatetime := t1 },
            .error .attributeError, false⟩ := by
        rw [update_signature_status_declined env db n t1 raw hraw hc]
        simp only [signature_declined,
          update_signer_status_resolved "declined" t1 hsig hsg, hdr]
      have hsig1 := findSignature_saveSigner_some
        { sg with status := "declined", statusDatetime := t1 } hsig
      have hsg1 : findSigner
          (updSig { sg with status := "declined", statusDatetime := t1 } sig)
          n.clientUserId = some { sg with status := "declined", statusDatetime := t1 } :=
        findSigner_updSig hsg rfl
      have hred2 : update_signature env
          (saveSigner db { sg with status := "declined", statusDatetime := t1 }) n t2 =
          ⟨saveSigner (saveSigner db { sg with status := "declined", statusDatetime := t1 })
              { sg with status := "declined", statusDatetime := t2 },
            .error .attributeError, false⟩ := by
        rw [update_signature_status_declined env _ n t2 raw hraw hc]
        simp only [signature_declined,
          update_signer_status_resolved "declined" t2 hsig1 hsg1, hdr]
      rw [hred1, ProcResult_db, hred2, ProcResult_db]
      exact ⟨{ sg with status := "declined", statusDatetime := t1 },
        { sg with status := "declined", statusDatetime := t2 },
        signerIn_saveSigner hsig hsg rfl,
        signerIn_saveSigner hsig1 hsg1 rfl,
        rfl, fun hcontra => absurd (hc.symm.trans hcontra) (by decide)⟩
    | some r =>
      have hred1 : update_signature env db n t1 =
          ⟨saveSigner (saveSigner db { sg with status := "declined", statusDatetime := t1 })
              { sg with status := "declined", statusDatetime := t1, statusDetails := r },
            .ok (), false⟩ := by
        rw [update_signature_status_declined env db n t1 raw hraw hc]
        simp only [signature_declined,
          update_signer_status_resolved "declined" t1 hsig hsg, hdr]
      have hsigA : findSignature
          (saveSigner (saveSigner db { sg with status := "declined", statusDatetime := t1 })
            { sg with status := "declined", statusDatetime := t1, statusDetails := r })
          n.envelopeID =
          some (updSig
            { sg with status := "declined", statusDatetime := t1, statusDetails := r }
            (updSig { sg with status := "declined", statusDatetime := t1 } sig)) :=
        findSignature_saveSigner_some _
          (findSignature_saveSigner_some _ hsig)
      have hsgA : findSigner
          (updSig { sg with status := "declined", statusDatetime := t1, statusDetails := r }
            (updSig { sg with status := "declined", statusDatetime := t1 } sig))
          n.clientUserId =
          some { sg with status := "declined", statusDatetime := t1, statusDetails := r } :=
        findSigner_updSig (findSigner_updSig hsg rfl) rfl
      have hred2 : update_signature env
          (saveSigner (saveSigner db { sg with status := "declined", statusDatetime := t1 })
            { sg with status := "declined", statusDatetime := t1, statusDetails := r }) n t2 =
          ⟨saveSigner (saveSigner
              (saveSigner (saveSigner db { sg with status := "declined", statusDatetime := t1 })
                { sg with status := "declined", statusDatetime := t1, statusDetails := r })
              { sg with status := "declined", statusDatetime := t2, statusDetails := r })
              { sg with status := "declined", statusDatetime := t2, statusDetails := r },
            .ok (), false⟩ := by
        rw [update_signature_status_declined env _ n t2 raw hraw hc]
        simp only [signature_declined,
          update_signer_status_resolved "declined" t2 hsigA hsgA, hdr]
      have hsigB := findSignature_saveSigner_some
        { sg with status := "declined", statusDatetime := t2, statusDetails := r } hsigA
      have hsgB : findSigner
          (updSig { sg with status := "declined", statusDatetime := t2, statusDetails := r }
            (updSig { sg with status := "declined", statusDatetime := t1, statusDetails := r }
              (updSig { sg with status := "declined", statusDatetime := t1 } sig)))
          n.clientUserId =
          some { sg with status := "declined", statusDatetime := t2, statusDetails := r } :=
        findSigner_updSig hsgA rfl
      rw [hred1, ProcResult_db, hred2, ProcResult_db]
      exact ⟨{ sg with status := "declined", statusDatetime := t1, statusDetails := r },
        { sg with status := "declined", statusDatetime := t2, statusDetails := r },
        signerIn_saveSigner (findSignature_saveSigner_some _ hsig)
          (findSigner_updSig hsg rfl) rfl,
        signerIn_saveSigner hsigB hsgB rfl,
        rfl, fun hcontra => absurd (hc.symm.trans hcontra) (by decide)⟩

/-- C8 witness: processing the identical "sent" notification twice on
the concrete database leaves the signer in state "sent" both times,
with only the timestamp refreshed on the second application. -/
theorem c8_idempotent_reapplication_witness :
    ∃ g1 g2,
      signerIn (update_signature envHappy dbW (notifW "sent") 5).db
        (notifW "sent").envelopeID (notifW "sent").clientUserId = some g1 ∧
      signerIn (update_signature envHappy
          (update_signature envHappy dbW (notifW "sent") 5).db (notifW "sent") 9).db
        (notifW "sent").envelopeID (notifW "sent").clientUserId = some g2 ∧
      g2 = { g1 with statusDatetime := 9 } ∧
      (lowerString "sent" = "sent" → g1.status = "sent" ∧ g2.status = "sent") :=
  c8_idempotent_reapplication envHappy dbW (notifW "sent") 5 9 "sent" signatureW
    signerW rfl (by decide) (by decide) (by decide)
    (fun hcontra => absurd hcontra (by decide))
